import Mathlib

/-!
Verification of the CS-330 scene renderer (SceneManager.cpp / ViewManager.cpp).

The development shallowly embeds the Scene Manager's texture registry, light
slots and uniform-pushing setters, and the View Manager's projection choice.
Floating point values are idealised as real numbers; glm matrices are 4 x 4
real matrices in the usual mathematical (column-vector) convention, in which
glm's matrix product coincides with the mathematical matrix product.
-/

namespace CS330

/-- A 4 x 4 real matrix, standing for a glm mat4. -/
abbrev Mat4 : Type := Matrix (Fin 4) (Fin 4) ℝ

/-- A glm vec3 of floats, idealised over the reals. -/
structure Vec3 where
  x : ℝ
  y : ℝ
  z : ℝ

/-- A glm vec4 of floats, idealised over the reals. -/
structure Vec4 where
  x : ℝ
  y : ℝ
  z : ℝ
  w : ℝ

/-- A glm vec2 of floats, idealised over the reals. -/
structure Vec2 where
  x : ℝ
  y : ℝ

/-- Componentwise addition of vec3 values (used for the tree canopy offset). -/
def Vec3.add (a b : Vec3) : Vec3 := ⟨a.x + b.x, a.y + b.y, a.z + b.z⟩

/-- glm::radians: degrees to radians. -/
noncomputable def glmRadians (d : ℝ) : ℝ := d * (Real.pi / 180)

/-- glm::translate(mat4(1), v): the affine translation matrix. -/
noncomputable def glmTranslate (v : Vec3) : Mat4 :=
  !![1, 0, 0, v.x;
     0, 1, 0, v.y;
     0, 0, 1, v.z;
     0, 0, 0, 1]

/-- glm::rotate(mat4(1), θ, vec3(1,0,0)): rotation about the X axis. -/
noncomputable def glmRotateX (θ : ℝ) : Mat4 :=
  !![1, 0,          0,           0;
     0, Real.cos θ, -Real.sin θ, 0;
     0, Real.sin θ, Real.cos θ,  0;
     0, 0,          0,           1]

/-- glm::rotate(mat4(1), θ, vec3(0,1,0)): rotation about the Y axis. -/
noncomputable def glmRotateY (θ : ℝ) : Mat4 :=
  !![Real.cos θ,  0, Real.sin θ, 0;
     0,           1, 0,          0;
     -Real.sin θ, 0, Real.cos θ, 0;
     0,           0, 0,          1]

/-- glm::rotate(mat4(1), θ, vec3(0,0,1)): rotation about the Z axis. -/
noncomputable def glmRotateZ (θ : ℝ) : Mat4 :=
  !![Real.cos θ, -Real.sin θ, 0, 0;
     Real.sin θ, Real.cos θ,  0, 0;
     0,          0,           1, 0;
     0,          0,           0, 1]

/-- glm::scale(mat4(1), v): the diagonal scaling matrix. -/
noncomputable def glmScale (v : Vec3) : Mat4 :=
  !![v.x, 0,   0,   0;
     0,   v.y, 0,   0;
     0,   0,   v.z, 0;
     0,   0,   0,   1]

/-- The model matrix computed by SceneManager::SetTransformations
(SceneManager.cpp lines 211-215): translate(position) times rotation about X,
then Y, then Z (each angle given in degrees and converted by glm::radians),
times the scale matrix. -/
noncomputable def setTransformationsModel (scaleXYZ : Vec3)
    (xRotationDegrees yRotationDegrees zRotationDegrees : ℝ)
    (positionXYZ : Vec3) : Mat4 :=
  glmTranslate positionXYZ *
    glmRotateX (glmRadians xRotationDegrees) *
    glmRotateY (glmRadians yRotationDegrees) *
    glmRotateZ (glmRadians zRotationDegrees) *
    glmScale scaleXYZ

/-! ## Scene Manager state and observable effects -/

/-- The four primitive mesh kinds of the ShapeMeshes library. -/
inductive Shape
  | plane
  | cylinder
  | cone
  | sphere
deriving DecidableEq

/-- An observable effect: a named-uniform write into the shading stage, a GL
call, a mesh load or a mesh draw. -/
inductive Ev
  | mat4 (name : String) (m : Mat4)
  | vec4 (name : String) (v : Vec4)
  | vec3 (name : String) (v : Vec3)
  | vec2 (name : String) (v : Vec2)
  | floatU (name : String) (x : ℝ)
  | intU (name : String) (v : Int)
  | sampler (name : String) (slot : Int)
  | useProgram
  | glEnableDepthTest
  | glDepthFuncLequal
  | glClearColorAndDepth
  | glActiveTexture (unit : Int)
  | glBindTexture (id : Nat)
  | glDeleteTexture (id : Nat)
  | loadMesh (s : Shape)
  | draw (s : Shape)

/-- TEXTURE_INFO: a GPU texture handle plus its lookup tag.  The default
constructor gives ID 0 and the empty tag. -/
structure TextureInfo where
  ID : Nat
  tag : String
deriving DecidableEq

instance : Inhabited TextureInfo := ⟨⟨0, ""⟩⟩

/-- LIGHT_SOURCE with its C++ default-constructor values (zero vectors,
focalStrength and specularIntensity 1). -/
structure LightSource where
  position : Vec3
  ambientColor : Vec3
  diffuseColor : Vec3
  specularColor : Vec3
  focalStrength : ℝ
  specularIntensity : ℝ

noncomputable instance : Inhabited LightSource :=
  ⟨⟨⟨0, 0, 0⟩, ⟨0, 0, 0⟩, ⟨0, 0, 0⟩, ⟨0, 0, 0⟩, 1, 1⟩⟩

/-- The SceneManager's registry and lighting state: m_textureIDs is a fixed
array of 128 TEXTURE_INFO entries, m_loadedTextures the occupancy counter,
m_lightSources an array of 4 slots.  The fixed arrays are lists whose lengths
(128 and 4) are carried as hypotheses where a claim needs them. -/
structure SMState where
  tex : List TextureInfo
  loadedTextures : Nat
  lights : List LightSource

/-- Reading m_textureIDs[i] (out-of-bounds reads, undefined in C++, give the
default entry; no claim reaches them). -/
def texAt (st : SMState) (i : Nat) : TextureInfo := st.tex.getD i default

/-- Reading m_lightSources[i]. -/
noncomputable def lightAt (st : SMState) (i : Nat) : LightSource :=
  st.lights.getD i default

/-- A freshly constructed SceneManager: zero occupancy, 128 default texture
entries, 4 default lights. -/
noncomputable def freshSM : SMState :=
  { tex := List.replicate 128 default
    loadedTextures := 0
    lights := List.replicate 4 default }

/-- SceneManager::FindTextureID: a range-based for loop over the WHOLE
m_textureIDs array (all 128 entries, registered or not); the first entry whose
tag equals the argument yields its ID, otherwise -1. -/
def findTextureID (st : SMState) (tag : String) : Int :=
  match st.tex.find? (fun t => t.tag == tag) with
  | some t => (t.ID : Int)
  | none => -1

/-- SceneManager::FindTextureSlot: a loop over indices 0 ≤ i < m_loadedTextures
returning the first index whose entry's tag matches, otherwise -1. -/
def findTextureSlot (st : SMState) (tag : String) : Int :=
  match (st.tex.take st.loadedTextures).findIdx? (fun t => t.tag == tag) with
  | some i => (i : Int)
  | none => -1

/-- The stbi_load result: width, height and channel count of a decoded image
(the pixel buffer itself plays no role in the registry). -/
structure ImageData where
  width : Int
  height : Int
  channels : Int
deriving DecidableEq

/-- SceneManager::CreateGLTexture.  The image decode (stbi_load) and the fresh
GL texture name (glGenTextures) are external effects, passed in as the decoded
result and the new id.  A failed decode returns false; a decode whose channel
count is neither 3 nor 4 returns false; both leave the registry untouched.  On
success the entry is stored at index m_loadedTextures and the counter advances.
(A store at occupancy 128 is out of bounds in C++; the List.set model drops it;
no claim reaches that occupancy.) -/
def createGLTexture (st : SMState) (decoded : Option ImageData) (newID : Nat)
    (tag : String) : Bool × SMState :=
  match decoded with
  | none => (false, st)
  | some img =>
    if img.channels = 3 ∨ img.channels = 4 then
      (true,
        { st with
          tex := st.tex.set st.loadedTextures ⟨newID, tag⟩
          loadedTextures := st.loadedTextures + 1 })
    else
      (false, st)

/-- SceneManager::BindGLTextures: bind every registered texture to the texture
unit equal to its registration index. -/
def bindGLTextures (st : SMState) : List Ev :=
  (List.range st.loadedTextures).flatMap fun i =>
    [.glActiveTexture i, .glBindTexture (texAt st i).ID]

/-- SceneManager::DestroyGLTextures: one glDeleteTextures call per registered
entry; no member of the state is written. -/
def destroyGLTextures (st : SMState) : List Ev × SMState :=
  ((List.range st.loadedTextures).map fun i => Ev.glDeleteTexture (texAt st i).ID,
    st)

/-! ## Uniform-pushing setters

Each setter takes hasShader, the nullness of the m_pShaderManager pointer
supplied at construction, and yields the uniform writes it performs. -/

/-- SceneManager::SetTransformations: compose the model matrix and, when the
shader-manager pointer is non-null, push it as the uniform named model. -/
noncomputable def setTransformations (hasShader : Bool) (scaleXYZ : Vec3)
    (xRotationDegrees yRotationDegrees zRotationDegrees : ℝ)
    (positionXYZ : Vec3) : List Ev :=
  if hasShader then
    [.mat4 "model"
      (setTransformationsModel scaleXYZ xRotationDegrees yRotationDegrees
        zRotationDegrees positionXYZ)]
  else []

/-- SceneManager::SetShaderColor: push bUseTexture = false and the RGBA colour
(only when the shader-manager pointer is non-null). -/
noncomputable def setShaderColor (hasShader : Bool) (r g b a : ℝ) : List Ev :=
  if hasShader then [.intU "bUseTexture" 0, .vec4 "objectColor" ⟨r, g, b, a⟩]
  else []

/-- SceneManager::SetShaderTexture: push bUseTexture = true, resolve the tag
through FindTextureSlot, and when found bind the texture and push its slot as
the objectTexture sampler; an unresolved tag pushes no sampler.  The whole
body is inside the null guard. -/
def setShaderTexture (hasShader : Bool) (st : SMState) (textureTag : String) :
    List Ev :=
  if hasShader then
    let slot := findTextureSlot st textureTag
    if slot ≠ -1 then
      [.intU "bUseTexture" 1, .glActiveTexture slot,
       .glBindTexture (texAt st slot.toNat).ID, .sampler "objectTexture" slot]
    else
      [.intU "bUseTexture" 1]
  else []

/-- SceneManager::SetTextureUVScale (guarded by the null check). -/
noncomputable def setTextureUVScale (hasShader : Bool) (u v : ℝ) : List Ev :=
  if hasShader then [.vec2 "UVscale" ⟨u, v⟩] else []

/-- SceneManager::SetLightColor (guarded by the null check). -/
noncomputable def setLightColor (hasShader : Bool) (r g b a : ℝ) : List Ev :=
  if hasShader then [.vec4 "lightColor" ⟨r, g, b, a⟩] else []

/-- SceneManager::SetLightSource: an index outside [0,4) returns at once with
no store, no push and no error.  An in-range index stores the light into its
slot and then pushes its six fields; these pushes dereference m_pShaderManager
with NO null guard, so with a null shader manager the C++ call dereferences
null - modelled as Except.error. -/
noncomputable def setLightSource (hasShader : Bool) (st : SMState) (index : Int)
    (light : LightSource) : Except Unit (List Ev × SMState) :=
  if index < 0 ∨ 4 ≤ index then .ok ([], st)
  else
    let st' := { st with lights := st.lights.set index.toNat light }
    let path : String := "lightSources[" ++ toString index ++ "]."
    if hasShader then
      .ok ([.vec3 (path ++ "position") light.position,
            .vec3 (path ++ "ambientColor") light.ambientColor,
            .vec3 (path ++ "diffuseColor") light.diffuseColor,
            .vec3 (path ++ "specularColor") light.specularColor,
            .floatU (path ++ "focalStrength") light.focalStrength,
            .floatU (path ++ "specularIntensity") light.specularIntensity],
           st')
    else .error ()

/-! ## PrepareScene -/

/-- The first light of PrepareScene (SceneManager.cpp lines 340-347). -/
noncomputable def light1 : LightSource :=
  { position := ⟨-10, 50, -20⟩
    ambientColor := ⟨0.3, 0.15, 0⟩
    diffuseColor := ⟨1, 0.6, 0⟩
    specularColor := ⟨1, 0.6, 0⟩
    focalStrength := 0.2
    specularIntensity := 0.2 }

/-- The second light of PrepareScene (lines 349-356). -/
noncomputable def light2 : LightSource :=
  { position := ⟨-8, 8, -22⟩
    ambientColor := ⟨0.3, 0.15, 0⟩
    diffuseColor := ⟨1, 0.6, 0⟩
    specularColor := ⟨1, 0.6, 0⟩
    focalStrength := 0.2
    specularIntensity := 0.2 }

/-- The third light of PrepareScene (lines 358-365). -/
noncomputable def light3 : LightSource :=
  { position := ⟨10, 9, -18⟩
    ambientColor := ⟨0.3, 0.15, 0⟩
    diffuseColor := ⟨1, 0.6, 0⟩
    specularColor := ⟨1, 0.6, 0⟩
    focalStrength := 0.2
    specularIntensity := 0.2 }

/-- SceneManager::PrepareScene: load the four primitive meshes, load the five
tagged textures (their boolean results are discarded, as in the source), then
set light slots 0, 1 and 2.  decode is the external image decoder and ids the
supply of fresh GL texture names for the five loads in order.  The in-range
SetLightSource calls dereference the shader manager, so a null pointer
propagates as an error. -/
noncomputable def prepareScene (hasShader : Bool) (st : SMState)
    (decode : String → Option ImageData) (ids : Nat → Nat) :
    Except Unit (SMState × List Ev) :=
  let meshEvs : List Ev :=
    [.loadMesh .plane, .loadMesh .cylinder, .loadMesh .cone, .loadMesh .sphere]
  let st1 := (createGLTexture st (decode "textures/bark.jpg") (ids 0) "bark").2
  let st2 := (createGLTexture st1 (decode "textures/grass.jpg") (ids 1) "grass").2
  let st3 := (createGLTexture st2 (decode "textures/water.jpg") (ids 2) "water").2
  let st4 := (createGLTexture st3 (decode "textures/leaves.jpg") (ids 3) "leaves").2
  let st5 := (createGLTexture st4 (decode "textures/sky.jpg") (ids 4) "sky").2
  match setLightSource hasShader st5 0 light1 with
  | .error e => .error e
  | .ok (evs1, st6) =>
    match setLightSource hasShader st6 1 light2 with
    | .error e => .error e
    | .ok (evs2, st7) =>
      match setLightSource hasShader st7 2 light3 with
      | .error e => .error e
      | .ok (evs3, st8) => .ok (st8, meshEvs ++ evs1 ++ evs2 ++ evs3)

/-! ## RenderScene -/

/-- The twelve positions of the first tree list (lines 477-490). -/
noncomputable def treePositions : List Vec3 :=
  [⟨10, -1, 5⟩, ⟨15, -1, 8⟩, ⟨18, -1, 3⟩,
   ⟨-10, -1, 5⟩, ⟨-15, -1, 8⟩, ⟨-18, -1, 3⟩,
   ⟨10, -1, -5⟩, ⟨15, -1, -8⟩, ⟨18, -1, -3⟩,
   ⟨-10, -1, -5⟩, ⟨-15, -1, -8⟩, ⟨-18, -1, -3⟩]

/-- The twelve positions of the second tree list (lines 519-532). -/
noncomputable def additionalTreePositions : List Vec3 :=
  [⟨-3, -1, 2⟩, ⟨3, -1, -2⟩, ⟨-7, -1, 3⟩, ⟨7, -1, -3⟩,
   ⟨-2, -1, -4⟩, ⟨2, -1, 4⟩, ⟨-6, -1, -3⟩, ⟨6, -1, 3⟩,
   ⟨15, -1, 10⟩, ⟨-15, -1, -10⟩, ⟨20, -1, 12⟩, ⟨-20, -1, -12⟩]

/-- The tree-part model matrix RenderScene composes inline (bypassing
SetTransformations): translate(pos) * rotate(glfwGetTime(), Y axis) * scale.
The wall-clock time is already in radians - glm::radians is not applied. -/
noncomputable def treeModel (time : ℝ) (pos scaleXYZ : Vec3) : Mat4 :=
  glmTranslate pos * glmRotateY time * glmScale scaleXYZ

/-- One tree at treePos: a bark-textured cylinder trunk then a leaves-textured
cone canopy offset upward by 1.5, each with its own inline model-matrix write
(pushed directly through the shader manager) and UV scale. -/
noncomputable def treePartEvents (st : SMState) (time : ℝ) (treePos : Vec3) :
    List Ev :=
  [Ev.mat4 "model" (treeModel time treePos ⟨0.5, 3, 0.5⟩)] ++
    setShaderTexture true st "bark" ++ setTextureUVScale true 1 1 ++
    [Ev.draw .cylinder] ++
    [Ev.mat4 "model" (treeModel time (treePos.add ⟨0, 1.5, 0⟩) ⟨2, 3, 2⟩)] ++
    setShaderTexture true st "leaves" ++ setTextureUVScale true 1 1 ++
    [Ev.draw .cone]

/-- SceneManager::RenderScene, as the ordered list of its observable effects.
RenderScene dereferences m_pShaderManager unconditionally (use(), the viewPos,
light and material writes), so it is modelled for a non-null shader manager;
time is the glfwGetTime() wall clock. -/
noncomputable def renderScene (st : SMState) (time : ℝ) : List Ev :=
  [Ev.glEnableDepthTest, Ev.glDepthFuncLequal, Ev.glClearColorAndDepth,
   Ev.useProgram, Ev.vec3 "viewPos" ⟨0, 0, 3⟩] ++
    ((List.range 3).flatMap fun i =>
      [Ev.vec3 ("lightSources[" ++ toString i ++ "].position")
        (lightAt st i).position,
       Ev.vec3 ("lightSources[" ++ toString i ++ "].ambientColor")
        (lightAt st i).ambientColor,
       Ev.vec3 ("lightSources[" ++ toString i ++ "].diffuseColor")
        (lightAt st i).diffuseColor,
       Ev.vec3 ("lightSources[" ++ toString i ++ "].specularColor")
        (lightAt st i).specularColor]) ++
    [Ev.intU "bUseLighting" 1,
     Ev.vec3 "material.ambientColor" ⟨0.2, 0.2, 0.2⟩,
     Ev.vec3 "material.diffuseColor" ⟨0.8, 0.8, 0.8⟩,
     Ev.vec3 "material.specularColor" ⟨1, 1, 1⟩,
     Ev.floatU "material.shininess" 32] ++
    setTransformations true ⟨25, 5, 36⟩ 0 0 0 ⟨0, -1, 0⟩ ++
    setShaderTexture true st "grass" ++ setTextureUVScale true 1 1 ++
    [Ev.draw .plane] ++
    setTransformations true ⟨25, 1, 2⟩ 0 0 0 ⟨0, -0.5, 0⟩ ++
    setShaderTexture true st "water" ++ setTextureUVScale true 1 1 ++
    [Ev.draw .plane] ++
    setTransformations true ⟨2, 2, 2⟩ 0 0 0 ⟨-10, 10, -20⟩ ++
    setShaderColor true 1 0.5 0 1 ++ [Ev.draw .sphere] ++
    setTransformations true ⟨1.5, 1.5, 1.5⟩ 0 0 0 ⟨-8, 8, -22⟩ ++
    setShaderColor true 1 0.5 0 1 ++ [Ev.draw .sphere] ++
    setTransformations true ⟨1, 1, 1⟩ 0 0 0 ⟨10, 9, -18⟩ ++
    setShaderColor true 1 0.5 0 1 ++ [Ev.draw .sphere] ++
    setTransformations true ⟨10, 5, 10⟩ 0 0 0 ⟨-10, 0, -20⟩ ++
    setShaderColor true 0.5 0.35 0.05 1 ++ [Ev.draw .cone] ++
    setTransformations true ⟨8, 4, 8⟩ 0 0 0 ⟨10, 0, -15⟩ ++
    setShaderColor true 0.55 0.4 0.1 1 ++ [Ev.draw .cone] ++
    setTransformations true ⟨12, 6, 12⟩ 0 0 0 ⟨0, 0, -25⟩ ++
    setShaderColor true 0.6 0.45 0.15 1 ++ [Ev.draw .cone] ++
    treePositions.flatMap (treePartEvents st time) ++
    additionalTreePositions.flatMap (treePartEvents st time) ++
    setTransformations true ⟨25, 5, 10⟩ 90 0 0 ⟨0, 9, -36⟩ ++
    setShaderTexture true st "sky" ++ setTextureUVScale true 1 1 ++
    [Ev.draw .plane]

/-! ## View Manager: projection -/

/-- glm::ortho for the default -1..1 clip space. -/
noncomputable def glmOrtho (l r b t n f : ℝ) : Mat4 :=
  !![2/(r - l), 0,         0,          -(r + l)/(r - l);
     0,         2/(t - b), 0,          -(t + b)/(t - b);
     0,         0,         -2/(f - n), -(f + n)/(f - n);
     0,         0,         0,          1]

/-- glm::perspective (right-handed, -1..1 clip space). -/
noncomputable def glmPerspective (fovy aspect n f : ℝ) : Mat4 :=
  !![1/(aspect * Real.tan (fovy/2)), 0, 0, 0;
     0, 1/Real.tan (fovy/2), 0, 0;
     0, 0, -(f + n)/(f - n), -(2*f*n)/(f - n);
     0, 0, -1, 0]

/-- The fixed window width WINDOW_WIDTH. -/
def windowWidth : Nat := 1000

/-- The fixed window height WINDOW_HEIGHT. -/
def windowHeight : Nat := 800

/-- The projection matrix ViewManager::PrepareSceneView computes each frame
(lines 203-211): a fixed orthographic volume when bOrthographicProjection is
set, else a perspective matrix from the camera's zoom (in degrees) and the
fixed window aspect ratio. -/
noncomputable def prepareSceneViewProjection (orthographic : Bool) (zoom : ℝ) :
    Mat4 :=
  if orthographic then glmOrtho (-10) 10 (-10) 10 0.1 100
  else
    glmPerspective (glmRadians zoom) ((windowWidth : ℝ) / (windowHeight : ℝ))
      0.1 100

/-- The uniform writes of ViewManager::PrepareSceneView: view, projection and
camera position, pushed only when the shader-manager pointer is non-null.  The
view matrix and camera position come from the external Camera class and are
parameters. -/
noncomputable def prepareSceneView (hasShader orthographic : Bool) (zoom : ℝ)
    (view : Mat4) (cameraPosition : Vec3) : List Ev :=
  if hasShader then
    [.mat4 "view" view,
     .mat4 "projection" (prepareSceneViewProjection orthographic zoom),
     .vec3 "viewPosition" cameraPosition]
  else []

/-! ## Trace observations used by the render-order claim -/

/-- Is the event a mesh draw call. -/
def Ev.isDraw : Ev → Bool
  | .draw _ => true
  | _ => false

/-- The shapes drawn, in order. -/
def drawShapes (evs : List Ev) : List Shape :=
  evs.filterMap fun e =>
    match e with
    | .draw s => some s
    | _ => none

/-- Is the event a write of the model-matrix uniform. -/
def Ev.isModelWrite : Ev → Bool
  | .mat4 n _ => n == "model"
  | _ => false

/-- Is the event a texture-or-colour uniform write (the writes SetShaderTexture
and SetShaderColor perform: bUseTexture, objectColor, objectTexture). -/
def Ev.isTexOrColorWrite : Ev → Bool
  | .intU n _ => n == "bUseTexture"
  | .vec4 n _ => n == "objectColor"
  | .sampler n _ => n == "objectTexture"
  | _ => false

/-- Every draw in the list is preceded, later than any earlier draw, by a
model-matrix write and by a texture-or-colour write; m and c record whether
such writes have been seen since the last draw. -/
def drawsGuarded (m c : Bool) : List Ev → Bool
  | [] => true
  | e :: rest =>
    if e.isDraw then m && c && drawsGuarded false false rest
    else drawsGuarded (m || e.isModelWrite) (c || e.isTexOrColorWrite) rest

/-- The sampler slots pushed as objectTexture, in order. -/
def samplerSlots (evs : List Ev) : List Int :=
  evs.filterMap fun e =>
    match e with
    | .sampler _ slot => some slot
    | _ => none

/-- The flat colours pushed as objectColor, in order. -/
def objectColors (evs : List Ev) : List Vec4 :=
  evs.filterMap fun e =>
    match e with
    | .vec4 n v => if n == "objectColor" then some v else none
    | _ => none

/-- The model matrices pushed, in order. -/
def modelWrites (evs : List Ev) : List Mat4 :=
  evs.filterMap fun e =>
    match e with
    | .mat4 n m => if n == "model" then some m else none
    | _ => none

/-! ## Concrete scenario: every texture file decodes -/

/-- A decode oracle on which every image file decodes as an RGB image (the
scenario PrepareScene intends). -/
def demoDecode : String → Option ImageData := fun _ => some ⟨1024, 1024, 3⟩

/-- A supply of GL texture names. -/
def demoIds : Nat → Nat := fun n => n + 1

/-- The registry state after one PrepareScene call on a fresh SceneManager
whose texture files all decode. -/
noncomputable def prepared1 : SMState :=
  ((prepareScene true freshSM demoDecode demoIds).map Prod.fst).toOption.getD
    freshSM

lemma glmTranslate_zero : glmTranslate ⟨0, 0, 0⟩ = 1 := by
  ext i j
  fin_cases i <;> fin_cases j <;>
    simp [glmTranslate, Matrix.one_apply, Matrix.vecHead, Matrix.vecTail]

lemma glmRotateX_zero : glmRotateX 0 = 1 := by
  ext i j
  fin_cases i <;> fin_cases j <;>
    simp [glmRotateX, Matrix.one_apply, Matrix.vecHead, Matrix.vecTail]

lemma glmRotateY_zero : glmRotateY 0 = 1 := by
  ext i j
  fin_cases i <;> fin_cases j <;>
    simp [glmRotateY, Matrix.one_apply, Matrix.vecHead, Matrix.vecTail]

lemma glmRotateZ_zero : glmRotateZ 0 = 1 := by
  ext i j
  fin_cases i <;> fin_cases j <;>
    simp [glmRotateZ, Matrix.one_apply, Matrix.vecHead, Matrix.vecTail]

lemma glmScale_one : glmScale ⟨1, 1, 1⟩ = 1 := by
  ext i j
  fin_cases i <;> fin_cases j <;>
    simp [glmScale, Matrix.one_apply, Matrix.vecHead, Matrix.vecTail]

lemma glmRadians_zero : glmRadians 0 = 0 := by
  simp [glmRadians]

/-- C1: SetTransformations pushes as the model uniform exactly the product
translate(position) * rotateX * rotateY * rotateZ * scale with the angles
converted from degrees to radians; for scale (1,1,1), zero angles and position
(0,0,0) that matrix is the identity, and for a rotation only about Y it is the
pure Y-axis rotation matrix. -/
theorem C1_setTransformations_pushes_trs_product :
    (∀ (s : Vec3) (x y z : ℝ) (p : Vec3),
      setTransformations true s x y z p =
        [Ev.mat4 "model"
          (glmTranslate p * glmRotateX (glmRadians x) *
            glmRotateY (glmRadians y) * glmRotateZ (glmRadians z) *
            glmScale s)]) ∧
    setTransformationsModel ⟨1, 1, 1⟩ 0 0 0 ⟨0, 0, 0⟩ = 1 ∧
    ∀ y : ℝ,
      setTransformationsModel ⟨1, 1, 1⟩ 0 y 0 ⟨0, 0, 0⟩ =
        glmRotateY (glmRadians y) := by
  refine ⟨fun s x y z p => rfl, ?_, ?_⟩
  · rw [setTransformationsModel, glmRadians_zero, glmTranslate_zero,
      glmRotateX_zero, glmRotateY_zero, glmRotateZ_zero, glmScale_one]
    simp
  · intro y
    rw [setTransformationsModel, glmRadians_zero, glmTranslate_zero,
      glmRotateX_zero, glmRotateZ_zero, glmScale_one]
    simp

/-- C7: each frame, orthographic mode pushes the orthographic projection of
extent -10..10 in X and Y with near plane 0.1 and far plane 100 (whose matrix
is computed explicitly below), and perspective mode pushes the perspective
projection whose field of view is the camera's zoom in degrees converted to
radians, with aspect ratio 1000/800 and the same near and far planes. -/
theorem C7_projection_matrix_per_mode :
    (∀ (zoom : ℝ) (view : Mat4) (pos : Vec3),
      prepareSceneView true true zoom view pos =
        [Ev.mat4 "view" view,
         Ev.mat4 "projection" (glmOrtho (-10) 10 (-10) 10 0.1 100),
         Ev.vec3 "viewPosition" pos]) ∧
    (∀ (zoom : ℝ) (view : Mat4) (pos : Vec3),
      prepareSceneView true false zoom view pos =
        [Ev.mat4 "view" view,
         Ev.mat4 "projection"
           (glmPerspective (glmRadians zoom) (1000 / 800) 0.1 100),
         Ev.vec3 "viewPosition" pos]) ∧
    glmOrtho (-10) 10 (-10) 10 0.1 100 =
      !![1/10, 0,    0,       0;
         0,    1/10, 0,       0;
         0,    0,    -20/999, -1001/999;
         0,    0,    0,       1] := by
  refine ⟨fun zoom view pos => rfl, fun zoom view pos => ?_, ?_⟩
  · have ha : ((windowWidth : ℝ) / (windowHeight : ℝ)) = 1000 / 800 := by
      norm_num [windowWidth, windowHeight]
    simp [prepareSceneView, prepareSceneViewProjection, ha]
  · ext i j
    fin_cases i <;> fin_cases j <;>
      norm_num [glmOrtho, Matrix.vecHead, Matrix.vecTail]

/-- C3 (part of the theorem): an in-range SetLightSource stores the light and
pushes its six fields under the per-index uniform path; an out-of-range index
changes no slot, pushes nothing and signals nothing. -/
theorem C3_setLightSource_bounds :
    (∀ (st : SMState) (index : Int) (light : LightSource),
      0 ≤ index → index < 4 →
      setLightSource true st index light =
        .ok ([.vec3 ("lightSources[" ++ toString index ++ "]." ++ "position")
                light.position,
              .vec3
                ("lightSources[" ++ toString index ++ "]." ++ "ambientColor")
                light.ambientColor,
              .vec3
                ("lightSources[" ++ toString index ++ "]." ++ "diffuseColor")
                light.diffuseColor,
              .vec3
                ("lightSources[" ++ toString index ++ "]." ++ "specularColor")
                light.specularColor,
              .floatU
                ("lightSources[" ++ toString index ++ "]." ++ "focalStrength")
                light.focalStrength,
              .floatU
                ("lightSources[" ++ toString index ++ "]." ++
                  "specularIntensity")
                light.specularIntensity],
             { st with lights := st.lights.set index.toNat light })) ∧
    ∀ (st : SMState) (index : Int) (light : LightSource),
      index < 0 ∨ 4 ≤ index →
      setLightSource true st index light = .ok ([], st) := by
  constructor
  · intro st index light h0 h4
    rw [setLightSource, if_neg (by omega)]
    rfl
  · intro st index light h
    rw [setLightSource, if_pos h]

/-- Witness for C3 at index 1 and the second PrepareScene light. -/
theorem C3_setLightSource_bounds_witness :
    setLightSource true freshSM 1 light2 =
      .ok ([.vec3 "lightSources[1].position" light2.position,
            .vec3 "lightSources[1].ambientColor" light2.ambientColor,
            .vec3 "lightSources[1].diffuseColor" light2.diffuseColor,
            .vec3 "lightSources[1].specularColor" light2.specularColor,
            .floatU "lightSources[1].focalStrength" light2.focalStrength,
            .floatU "lightSources[1].specularIntensity"
              light2.specularIntensity],
           { freshSM with lights := freshSM.lights.set 1 light2 }) ∧
    setLightSource true freshSM 5 light2 = .ok ([], freshSM) :=
  ⟨C3_setLightSource_bounds.1 freshSM 1 light2 (by decide) (by decide),
   C3_setLightSource_bounds.2 freshSM 5 light2 (Or.inr (by decide))⟩

/-- C4: a decode failure, and a decode whose channel count is neither 3 nor 4,
make CreateGLTexture return false with the registry state unchanged: same
occupancy counter, no entry added or modified. -/
theorem C4_createGLTexture_failure_no_state_change :
    (∀ (st : SMState) (newID : Nat) (tag : String),
      createGLTexture st none newID tag = (false, st)) ∧
    ∀ (st : SMState) (img : ImageData) (newID : Nat) (tag : String),
      img.channels ≠ 3 → img.channels ≠ 4 →
      createGLTexture st (some img) newID tag = (false, st) := by
  refine ⟨fun st newID tag => rfl, ?_⟩
  intro st img newID tag h3 h4
  rw [createGLTexture, if_neg (by tauto)]

/-- Witness for C4 on a 2-channel (grayscale-alpha) image. -/
theorem C4_createGLTexture_failure_witness :
    createGLTexture freshSM (some ⟨256, 256, 2⟩) 7 "gray" = (false, freshSM) :=
  C4_createGLTexture_failure_no_state_change.2 freshSM ⟨256, 256, 2⟩ 7 "gray"
    (by decide) (by decide)

/-- C9: DestroyGLTextures emits exactly one texture-free per registered entry,
in registration order, and leaves every member of the registry state as it
was, so a later lookup by any tag returns the same (now stale) handle and
slot. -/
theorem C9_destroyGLTextures_frees_but_keeps_registry :
    ∀ st : SMState,
      (destroyGLTextures st).2 = st ∧
      (destroyGLTextures st).1 =
        (List.range st.loadedTextures).map
          (fun i => Ev.glDeleteTexture (texAt st i).ID) ∧
      ∀ tag : String,
        findTextureID (destroyGLTextures st).2 tag = findTextureID st tag ∧
        findTextureSlot (destroyGLTextures st).2 tag =
          findTextureSlot st tag :=
  fun _ => ⟨rfl, rfl, fun _ => ⟨rfl, rfl⟩⟩

/-- C10: with a null shader manager every other uniform-pushing setter of the
Scene Manager skips its pushes and returns normally, while SetLightSource with
an in-range index dereferences the null pointer (only its out-of-range early
return is safe), so its pushes require a non-null ShaderManager at
construction. -/
theorem C10_only_setLightSource_unguarded :
    (∀ (s : Vec3) (x y z : ℝ) (p : Vec3),
      setTransformations false s x y z p = []) ∧
    (∀ r g b a : ℝ, setShaderColor false r g b a = []) ∧
    (∀ (st : SMState) (tag : String), setShaderTexture false st tag = []) ∧
    (∀ u v : ℝ, setTextureUVScale false u v = []) ∧
    (∀ r g b a : ℝ, setLightColor false r g b a = []) ∧
    (∀ (st : SMState) (index : Int) (light : LightSource),
      0 ≤ index → index < 4 →
      setLightSource false st index light = .error ()) ∧
    ∀ (st : SMState) (index : Int) (light : LightSource),
      index < 0 ∨ 4 ≤ index →
      setLightSource false st index light = .ok ([], st) := by
  refine ⟨fun _ _ _ _ _ => rfl, fun _ _ _ _ => rfl, fun _ _ => rfl,
    fun _ _ => rfl, fun _ _ _ _ => rfl, ?_, ?_⟩
  · intro st index light h0 h4
    rw [setLightSource, if_neg (by omega)]
    rfl
  · intro st index light h
    rw [setLightSource, if_pos h]

/-- Witness for C10: a null-shader SetLightSource at index 2 dereferences
null, and at index 7 returns safely. -/
theorem C10_only_setLightSource_unguarded_witness :
    setLightSource false freshSM 2 light3 = .error () ∧
    setLightSource false freshSM 7 light3 = .ok ([], freshSM) :=
  ⟨C10_only_setLightSource_unguarded.2.2.2.2.2.1 freshSM 2 light3 (by decide)
      (by decide),
   C10_only_setLightSource_unguarded.2.2.2.2.2.2 freshSM 7 light3
      (Or.inr (by decide))⟩

/-- C6: SetShaderTexture always pushes bUseTexture = true; a tag resolving to
a registered slot additionally binds it and pushes the slot as the
objectTexture sampler; an unresolved tag pushes only the enable (no sampler
uniform at all) and returns normally - no stop, no error signal. -/
theorem C6_setShaderTexture_sampler :
    (∀ (st : SMState) (tag : String),
      Ev.intU "bUseTexture" 1 ∈ setShaderTexture true st tag) ∧
    (∀ (st : SMState) (tag : String),
      findTextureSlot st tag ≠ -1 →
      setShaderTexture true st tag =
        [Ev.intU "bUseTexture" 1,
         Ev.glActiveTexture (findTextureSlot st tag),
         Ev.glBindTexture (texAt st (findTextureSlot st tag).toNat).ID,
         Ev.sampler "objectTexture" (findTextureSlot st tag)]) ∧
    ∀ (st : SMState) (tag : String),
      findTextureSlot st tag = -1 →
      setShaderTexture true st tag = [Ev.intU "bUseTexture" 1] := by
  refine ⟨?_, ?_, ?_⟩
  · intro st tag
    by_cases h : findTextureSlot st tag = -1 <;> simp [setShaderTexture, h]
  · intro st tag h
    simp [setShaderTexture, h]
  · intro st tag h
    simp [setShaderTexture, h]

/-- Witness for C6: after PrepareScene the grass tag resolves (slot 1) and the
sampler is pushed; on a fresh SceneManager it is unresolved and only the
enable is pushed. -/
theorem C6_setShaderTexture_sampler_witness :
    setShaderTexture true prepared1 "grass" =
      [Ev.intU "bUseTexture" 1,
       Ev.glActiveTexture (findTextureSlot prepared1 "grass"),
       Ev.glBindTexture
         (texAt prepared1 (findTextureSlot prepared1 "grass").toNat).ID,
       Ev.sampler "objectTexture" (findTextureSlot prepared1 "grass")] ∧
    setShaderTexture true freshSM "grass" = [Ev.intU "bUseTexture" 1] :=
  ⟨C6_setShaderTexture_sampler.2.1 prepared1 "grass" (by decide),
   C6_setShaderTexture_sampler.2.2 freshSM "grass" (by decide)⟩

/-- A successful texture load: the decoded image has 3 or 4 channels, the
entry is appended at the occupancy index and the counter advances. -/
lemma createGLTexture_some_ok (st : SMState) (img : ImageData) (newID : Nat)
    (tag : String) (hc : img.channels = 3 ∨ img.channels = 4) :
    createGLTexture st (some img) newID tag =
      (true,
        { st with
          tex := st.tex.set st.loadedTextures ⟨newID, tag⟩
          loadedTextures := st.loadedTextures + 1 }) := by
  simp only [createGLTexture]
  rw [if_pos hc]

/-- C8: PrepareScene is not idempotent.  From a fresh SceneManager, when every
texture file decodes with a supported channel count, one call leaves occupancy
exactly 5 with the tags bark, grass, water, leaves, sky at slots 0..4 and the
three PrepareScene lights in slots 0, 1, 2; running PrepareScene a second time
re-loads everything, leaving occupancy 10 = 2 * 5. -/
theorem C8_prepareScene_not_idempotent :
    ∀ (decode : String → Option ImageData) (ids ids2 : Nat → Nat),
      (∀ path : String, ∃ img : ImageData,
        decode path = some img ∧ (img.channels = 3 ∨ img.channels = 4)) →
      ((prepareScene true freshSM decode ids).map
          fun r => r.1.loadedTextures) = .ok 5 ∧
      ((prepareScene true freshSM decode ids).map
          fun r => [(texAt r.1 0).tag, (texAt r.1 1).tag, (texAt r.1 2).tag,
                    (texAt r.1 3).tag, (texAt r.1 4).tag]) =
        .ok ["bark", "grass", "water", "leaves", "sky"] ∧
      ((prepareScene true freshSM decode ids).map
          fun r => (lightAt r.1 0, lightAt r.1 1, lightAt r.1 2)) =
        .ok (light1, light2, light3) ∧
      (((prepareScene true freshSM decode ids).bind
          fun r => prepareScene true r.1 decode ids2).map
          fun r => r.1.loadedTextures) = .ok 10 := by
  intro decode ids ids2 h
  obtain ⟨imgB, hB, hBc⟩ := h "textures/bark.jpg"
  obtain ⟨imgG, hG, hGc⟩ := h "textures/grass.jpg"
  obtain ⟨imgW, hW, hWc⟩ := h "textures/water.jpg"
  obtain ⟨imgL, hL, hLc⟩ := h "textures/leaves.jpg"
  obtain ⟨imgS, hS, hSc⟩ := h "textures/sky.jpg"
  refine ⟨?_, ?_, ?_, ?_⟩ <;>
    simp [prepareScene, setLightSource, hB, hG, hW, hL, hS,
      createGLTexture_some_ok _ _ _ _ hBc, createGLTexture_some_ok _ _ _ _ hGc,
      createGLTexture_some_ok _ _ _ _ hWc, createGLTexture_some_ok _ _ _ _ hLc,
      createGLTexture_some_ok _ _ _ _ hSc, texAt, lightAt, freshSM,
      Except.map, Except.bind]

/-- Witness for C8 with the all-RGB decode oracle. -/
theorem C8_prepareScene_not_idempotent_witness :
    ((prepareScene true freshSM demoDecode demoIds).map
        fun r => r.1.loadedTextures) = .ok 5 ∧
    ((prepareScene true freshSM demoDecode demoIds).map
        fun r => [(texAt r.1 0).tag, (texAt r.1 1).tag, (texAt r.1 2).tag,
                  (texAt r.1 3).tag, (texAt r.1 4).tag]) =
      .ok ["bark", "grass", "water", "leaves", "sky"] ∧
    ((prepareScene true freshSM demoDecode demoIds).map
        fun r => (lightAt r.1 0, lightAt r.1 1, lightAt r.1 2)) =
      .ok (light1, light2, light3) ∧
    (((prepareScene true freshSM demoDecode demoIds).bind
        fun r => prepareScene true r.1 demoDecode demoIds).map
        fun r => r.1.loadedTextures) = .ok 10 :=
  C8_prepareScene_not_idempotent demoDecode demoIds demoIds
    (fun _ => ⟨⟨1024, 1024, 3⟩, rfl, Or.inl rfl⟩)

/-- find? returns the element at the first index satisfying the test. -/
lemma find?_first_index {α : Type} [Inhabited α] (p : α → Bool) :
    ∀ (l : List α) (i : Nat), i < l.length → p (l.getD i default) = true →
      (∀ j, j < i → p (l.getD j default) = false) →
      l.find? p = some (l.getD i default)
  | [], i, hi, _, _ => absurd hi (by simp)
  | a :: l, 0, _, hp, _ => by
      simp only [List.getD_cons_zero] at hp ⊢
      simp [List.find?_cons_of_pos _ hp]
  | a :: l, i + 1, hi, hp, hb => by
      have ha : p a = false := by simpa using hb 0 (Nat.succ_pos i)
      rw [List.find?_cons_of_neg _ (by simp [ha])]
      simp only [List.getD_cons_succ] at hp ⊢
      exact find?_first_index p l i (by simpa using hi) hp
        (fun j hj => by simpa using hb (j + 1) (Nat.succ_lt_succ hj))

/-- find? fails when the test fails at every index. -/
lemma find?_none_of_indices {α : Type} [Inhabited α] (p : α → Bool) :
    ∀ l : List α, (∀ j, j < l.length → p (l.getD j default) = false) →
      l.find? p = none
  | [], _ => rfl
  | a :: l, h => by
      have ha : p a = false := by simpa using h 0 (by simp)
      rw [List.find?_cons_of_neg _ (by simp [ha])]
      exact find?_none_of_indices p l
        (fun j hj => by simpa using h (j + 1) (by simpa using Nat.succ_lt_succ hj))

/-- findIdx? with start offset s finds s plus the first matching index. -/
lemma findIdx?_go_first {α : Type} [Inhabited α] (p : α → Bool) :
    ∀ (l : List α) (i s : Nat), i < l.length → p (l.getD i default) = true →
      (∀ j, j < i → p (l.getD j default) = false) →
      l.findIdx? p s = some (s + i)
  | [], i, _, hi, _, _ => absurd hi (by simp)
  | a :: l, 0, s, _, hp, _ => by
      simp only [List.getD_cons_zero] at hp
      simp [List.findIdx?_cons, hp]
  | a :: l, i + 1, s, hi, hp, hb => by
      have ha : p a = false := by simpa using hb 0 (Nat.succ_pos i)
      simp only [List.getD_cons_succ] at hp
      rw [List.findIdx?_cons, if_neg (by simp [ha])]
      rw [findIdx?_go_first p l i (s + 1) (by simpa using hi) hp
        (fun j hj => by simpa using hb (j + 1) (Nat.succ_lt_succ hj))]
      congr 1
      omega

/-- findIdx? returns the first index satisfying the test. -/
lemma findIdx?_first_index {α : Type} [Inhabited α] (p : α → Bool)
    (l : List α) (i : Nat) (hi : i < l.length)
    (hp : p (l.getD i default) = true)
    (hb : ∀ j, j < i → p (l.getD j default) = false) :
    l.findIdx? p = some i := by
  simpa using findIdx?_go_first p l i 0 hi hp hb

/-- findIdx? with any start offset fails when the test fails everywhere. -/
lemma findIdx?_go_none {α : Type} [Inhabited α] (p : α → Bool) :
    ∀ (l : List α) (s : Nat),
      (∀ j, j < l.length → p (l.getD j default) = false) →
      l.findIdx? p s = none
  | [], _, _ => rfl
  | a :: l, s, h => by
      have ha : p a = false := by simpa using h 0 (by simp)
      rw [List.findIdx?_cons, if_neg (by simp [ha])]
      exact findIdx?_go_none p l (s + 1)
        (fun j hj => by
          simpa using h (j + 1) (by simpa using Nat.succ_lt_succ hj))

/-- findIdx? fails when the test fails at every index. -/
lemma findIdx?_none_of_indices {α : Type} [Inhabited α] (p : α → Bool)
    (l : List α) (h : ∀ j, j < l.length → p (l.getD j default) = false) :
    l.findIdx? p = none :=
  findIdx?_go_none p l 0 h

/-- Reading an index below the cutoff through take is reading the list. -/
lemma getD_take_of_lt {α : Type} [Inhabited α] (l : List α) (n j : Nat)
    (hj : j < n) : (l.take n).getD j default = l.getD j default := by
  simp [List.getD_eq_getElem?_getD, List.getElem?_take, hj]

/-- C2 (amended): under the reachable-registry invariant (128 entries,
occupancy at most 128, entries from the occupancy on still default), for a tag
with a registered entry FindTextureSlot returns the index of the FIRST entry
registered with it and FindTextureID that entry's GPU handle; for a
never-registered nonempty tag both return -1; but for the never-registered
EMPTY string only FindTextureSlot returns -1: FindTextureID, which scans all
128 array entries, returns 0 - the default handle of the first unregistered
entry - whenever fewer than 128 textures are registered. -/
theorem C2_find_first_match_amended :
    ∀ (st : SMState) (tag : String),
      st.tex.length = 128 → st.loadedTextures ≤ 128 →
      (∀ j, j < 128 → st.loadedTextures ≤ j → texAt st j = default) →
      ((∀ i₀, i₀ < st.loadedTextures → (texAt st i₀).tag = tag →
          (∀ j, j < i₀ → (texAt st j).tag ≠ tag) →
          findTextureSlot st tag = i₀ ∧
          findTextureID st tag = (texAt st i₀).ID) ∧
        ((∀ j, j < st.loadedTextures → (texAt st j).tag ≠ tag) →
          findTextureSlot st tag = -1 ∧
          (tag ≠ "" → findTextureID st tag = -1) ∧
          (tag = "" → st.loadedTextures < 128 → findTextureID st tag = 0))) := by
  intro st tag hlen hload hdef
  simp only [texAt] at hdef
  have htake : (st.tex.take st.loadedTextures).length = st.loadedTextures := by
    rw [List.length_take, hlen]
    omega
  constructor
  · intro i₀ hi₀ hmatch hfirst
    simp only [texAt] at hmatch hfirst
    constructor
    · have hfind := findIdx?_first_index (fun t : TextureInfo => t.tag == tag)
        (st.tex.take st.loadedTextures) i₀
        (by rw [htake]; exact hi₀)
        (by rw [getD_take_of_lt _ _ _ hi₀]; simpa using hmatch)
        (fun j hj => by
          rw [getD_take_of_lt _ _ _ (Nat.lt_trans hj hi₀)]
          simpa using hfirst j hj)
      simp only [findTextureSlot, hfind]
    · have hfind := find?_first_index (fun t : TextureInfo => t.tag == tag)
        st.tex i₀ (by rw [hlen]; omega)
        (by simpa using hmatch)
        (fun j hj => by simpa using hfirst j hj)
      simp only [findTextureID, hfind, texAt]
  · intro hnone
    simp only [texAt] at hnone
    refine ⟨?_, ?_, ?_⟩
    · have hfind := findIdx?_none_of_indices (fun t : TextureInfo => t.tag == tag)
        (st.tex.take st.loadedTextures)
        (fun j hj => by
          rw [htake] at hj
          rw [getD_take_of_lt _ _ _ hj]
          simpa using hnone j hj)
      simp only [findTextureSlot, hfind]
    · intro hne
      have hfind := find?_none_of_indices (fun t : TextureInfo => t.tag == tag)
        st.tex
        (fun j hj => by
          rw [hlen] at hj
          rcases Nat.lt_or_ge j st.loadedTextures with h | h
          · simpa using hnone j h
          · rw [hdef j hj h]
            simp only [beq_eq_false_iff_ne, ne_eq]
            exact fun hc => hne hc.symm)
      simp only [findTextureID, hfind]
    · intro hempty hlt
      have hat : st.tex.getD st.loadedTextures default = default :=
        hdef st.loadedTextures hlt (Nat.le_refl _)
      have hfind := find?_first_index (fun t : TextureInfo => t.tag == tag)
        st.tex st.loadedTextures (by rw [hlen]; omega)
        (by rw [hat, hempty]; rfl)
        (fun j hj => by simpa using hnone j hj)
      simp only [findTextureID, hfind, hat]
      rfl

/-- C2 counterexample: on a fresh SceneManager no tag was ever registered -
occupancy is 0 - yet FindTextureID of the empty string returns 0, the default
entry's handle, not the claimed not-found value -1. -/
theorem C2_find_counterexample :
    freshSM.loadedTextures = 0 ∧
    findTextureID freshSM "" = 0 ∧ findTextureID freshSM "" ≠ -1 :=
  ⟨rfl, rfl, by decide⟩

set_option maxRecDepth 4096 in
/-- Witness for C2 after PrepareScene: the water tag registered third is found
at slot 2 with its own handle; an unregistered nonempty tag gives -1 from both
lookups; and the empty string exhibits the amended behaviour. -/
theorem C2_find_first_match_amended_witness :
    (findTextureSlot prepared1 "water" = 2 ∧
      findTextureID prepared1 "water" = (texAt prepared1 2).ID) ∧
    findTextureSlot prepared1 "stone" = -1 ∧
    findTextureID prepared1 "stone" = -1 ∧
    findTextureID prepared1 "" = 0 := by
  have base := C2_find_first_match_amended prepared1
  refine ⟨(base "water" (by decide) (by decide) (by decide)).1 2 (by decide)
      (by decide) (by decide), ?_, ?_, ?_⟩
  · exact ((base "stone" (by decide) (by decide) (by decide)).2
      (by decide)).1
  · exact ((base "stone" (by decide) (by decide) (by decide)).2
      (by decide)).2.1 (by decide)
  · exact ((base "" (by decide) (by decide) (by decide)).2
      (by decide)).2.2 (by decide) (by decide)

set_option maxRecDepth 8192 in
set_option maxHeartbeats 3200000 in
/-- C5: at any wall-clock time, one RenderScene call on the PrepareScene
state draws, in this order: the ground plane (grass, sampler slot 1), the
water plane (slot 2), three flat-orange spheres of decreasing scale (2, 1.5,
1), three brown cones, then for each of the 24 tree positions a cylinder
trunk (bark, slot 0) and a cone canopy (leaves, slot 3), and finally the sky
plane (slot 4); and every draw is preceded, later than the previous draw, by
its own model-matrix write and texture-or-colour write. -/
theorem C5_renderScene_order : ∀ time : ℝ,
    drawShapes (renderScene prepared1 time) =
      [Shape.plane, Shape.plane, Shape.sphere, Shape.sphere, Shape.sphere,
       Shape.cone, Shape.cone, Shape.cone] ++
        (List.replicate 24 [Shape.cylinder, Shape.cone]).flatten ++
        [Shape.plane] ∧
    drawsGuarded false false (renderScene prepared1 time) = true ∧
    samplerSlots (renderScene prepared1 time) =
      [1, 2] ++ (List.replicate 24 [(0 : Int), 3]).flatten ++ [4] ∧
    objectColors (renderScene prepared1 time) =
      [⟨1, 0.5, 0, 1⟩, ⟨1, 0.5, 0, 1⟩, ⟨1, 0.5, 0, 1⟩,
       ⟨0.5, 0.35, 0.05, 1⟩, ⟨0.55, 0.4, 0.1, 1⟩,
       ⟨0.6, 0.45, 0.15, 1⟩] ∧
    (modelWrites (renderScene prepared1 time))[2]? =
      some (setTransformationsModel ⟨2, 2, 2⟩ 0 0 0 ⟨-10, 10, -20⟩) ∧
    (modelWrites (renderScene prepared1 time))[3]? =
      some (setTransformationsModel ⟨1.5, 1.5, 1.5⟩ 0 0 0 ⟨-8, 8, -22⟩) ∧
    (modelWrites (renderScene prepared1 time))[4]? =
      some (setTransformationsModel ⟨1, 1, 1⟩ 0 0 0 ⟨10, 9, -18⟩) := by
  intro time
  exact ⟨rfl, rfl, rfl, rfl, rfl, rfl, rfl⟩

end CS330
